import Mathlib

/-!
Verification of the session-scoped conversation store and chat handlers of
the cf_ai_chat worker repository.

The repository contains near-duplicate Cloudflare-worker implementations of
a chat service.  We shallowly embed:

* the main worker entry point of `src/unnamed/part_004` (namespace `Part004`):
  its `handleChat`, `handleGetHistory`, `handleDeleteHistory` and top-level
  `fetch` router;
* the `Server` class of `src/src/server.ts` (namespace `ServerTs`): its
  `handleChat`, `saveMessage`, `getMessages`, `handleGetHistory`,
  `handleDeleteHistory` and `handleRequest`;
* the `analyzeWebsite` tool of `src/unnamed/part_002` / `part_003`
  (namespace `Tools`).

The D1 `messages` table is modelled as a list of rows in insertion order
(server-assigned timestamps are monotone, ties broken by insertion order, so
`ORDER BY timestamp ASC` is insertion order).  Fallible external effects are
modelled explicitly: the model call is a function returning `Except`, and
each database statement takes a `Bool` saying whether it succeeds or throws,
mirroring the `try`/`catch` structure of the source.
-/

/-- One role-tagged message, as exchanged with the model and the client. -/
structure Msg where
  role : String
  content : String
deriving Repr, DecidableEq

/-- One persisted row of the D1 `messages` table (timestamp kept implicit:
rows are listed in insertion order). -/
structure Row where
  session : String
  role : String
  content : String
deriving Repr, DecidableEq

/-- The `messages` table: rows in insertion order. -/
abbrev DB := List Row

/-- `SELECT role, content FROM messages WHERE session_id = ? ORDER BY timestamp ASC`:
the per-session log in insertion order, projected to role/content pairs. -/
def listStore (db : DB) (sid : String) : List Msg :=
  (db.filter (fun r => r.session == sid)).map (fun r => ⟨r.role, r.content⟩)

/-- `DELETE FROM messages WHERE session_id = ?`: drop the session's rows. -/
def clearStore (db : DB) (sid : String) : DB :=
  db.filter (fun r => !(r.session == sid))

/-- Parsed body of a POST /api/chat request. -/
structure ChatReq where
  message : String
  sessionId : String
  conversationHistory : List Msg
deriving Repr, DecidableEq

/-- JSON response of the chat handler: HTTP status, `success` flag, the
assistant message content when present, the `error` string when present, and
whether the CORS headers were attached. -/
structure ChatResp where
  status : Nat
  success : Bool
  content : Option String
  error : Option String
  cors : Bool
deriving Repr, DecidableEq

/-- JSON response of the history handlers. -/
structure HistResp where
  status : Nat
  success : Bool
  messages : List Msg
  error : Option String
  cors : Bool
deriving Repr, DecidableEq

/-- An incoming HTTP request as far as the routers inspect it. -/
structure Request where
  method : String
  path : String
  chatBody : ChatReq
  sessionParam : Option String
deriving Repr, DecidableEq

/-- The shape of a routed HTTP response that the CORS claims talk about. -/
structure HttpResp where
  status : Nat
  cors : Bool
  hasBody : Bool
deriving Repr, DecidableEq

namespace Part004

/-- The `messages` array built in `handleChat` (part_004 lines 125-140):
the client-supplied `conversationHistory` mapped to role/content objects,
then the current user message pushed last with role `user`. -/
def assembledMessages (req : ChatReq) : List Msg :=
  req.conversationHistory.map (fun m => ⟨m.role, m.content⟩) ++
    [⟨"user", req.message⟩]

/-- The persistence block of `handleChat` (part_004 lines 156-167): one
`try` around two sequential INSERTs (user row first, then assistant row);
any throw is caught and swallowed.  `okUser` / `okAsst` say whether each
INSERT succeeds; if the first throws, the second is never executed. -/
def persistPair (db : DB) (sid userMsg asstMsg : String)
    (okUser okAsst : Bool) : DB :=
  if okUser then
    let db1 := db ++ [⟨sid, "user", userMsg⟩]
    if okAsst then db1 ++ [⟨sid, "assistant", asstMsg⟩] else db1
  else db

/-- `handleChat` of part_004: validates that `message` and `sessionId` are
non-empty (JS falsiness of the empty string), builds the model input from
the client history hint plus the new user message, calls the model
(`aiRun`, returning the optional `response` field on success), takes
`aiResponse.response || "No response generated"` as the assistant content,
best-effort persists the user/assistant pair, and returns the assistant
message with `success: true`; a model throw is caught and returned as a
500 with the error message. -/
def handleChat (req : ChatReq)
    (aiRun : List Msg → Except String (Option String))
    (okUser okAsst : Bool) (db : DB) : DB × ChatResp :=
  if req.message = "" ∨ req.sessionId = "" then
    (db, ⟨400, false, none, some "Missing required fields", true⟩)
  else
    match aiRun (assembledMessages req) with
    | .error e => (db, ⟨500, false, none, some e, true⟩)
    | .ok rsp =>
        let content := rsp.getD "No response generated"
        (persistPair db req.sessionId req.message content okUser okAsst,
         ⟨200, true, some content, none, true⟩)

/-- `handleGetHistory` of part_004: 400 when the `sessionId` query parameter
is missing or empty; otherwise the SELECT runs inside the outer `try`, so a
read failure (`readOk = false`) propagates to the catch and yields a 500. -/
def handleGetHistory (sessionParam : Option String) (readOk : Bool)
    (db : DB) : HistResp :=
  let sid := sessionParam.getD ""
  if sid = "" then ⟨400, false, [], some "Missing sessionId", true⟩
  else if readOk then ⟨200, true, listStore db sid, none, true⟩
  else ⟨500, false, [], some "Internal server error", true⟩

/-- `handleDeleteHistory` of part_004: 400 when `sessionId` is missing or
empty; otherwise the DELETE runs inside the outer `try`, so a delete
failure yields a 500 and leaves the table unchanged. -/
def handleDeleteHistory (sessionParam : Option String) (delOk : Bool)
    (db : DB) : DB × HistResp :=
  let sid := sessionParam.getD ""
  if sid = "" then (db, ⟨400, false, [], some "Missing sessionId", true⟩)
  else if delOk then (clearStore db sid, ⟨200, true, [], none, true⟩)
  else (db, ⟨500, false, [], some "Internal server error", true⟩)

/-- The top-level `fetch` of part_004: OPTIONS short-circuits to a 204 with
CORS headers and no body; the API routes dispatch to the handlers above;
`/` and `/index.html` serve the HTML; everything else is a 404.  Every
branch attaches the CORS headers. -/
def fetch (r : Request)
    (aiRun : List Msg → Except String (Option String))
    (okUser okAsst readOk delOk : Bool) (db : DB) : DB × HttpResp :=
  if r.method = "OPTIONS" then (db, ⟨204, true, false⟩)
  else if r.path = "/api/chat" ∧ r.method = "POST" then
    let res := handleChat r.chatBody aiRun okUser okAsst db
    (res.1, ⟨res.2.status, res.2.cors, true⟩)
  else if r.path = "/api/history" ∧ r.method = "GET" then
    let resp := handleGetHistory r.sessionParam readOk db
    (db, ⟨resp.status, resp.cors, true⟩)
  else if r.path = "/api/history" ∧ r.method = "DELETE" then
    let res := handleDeleteHistory r.sessionParam delOk db
    (res.1, ⟨res.2.status, res.2.cors, true⟩)
  else if r.path = "/" ∨ r.path = "/index.html" then (db, ⟨200, true, true⟩)
  else (db, ⟨404, true, true⟩)

end Part004

namespace ServerTs

/-- `Server.saveMessage` of server.ts: a single INSERT wrapped in its own
`try`/`catch`, so a failure (`ok = false`) is swallowed and the table is
left unchanged. -/
def saveMessage (db : DB) (sid role content : String) (ok : Bool) : DB :=
  if ok then db ++ [⟨sid, role, content⟩] else db

/-- `Server.getMessages` of server.ts: the SELECT wrapped in its own
`try`/`catch` returning `[]` on failure. -/
def getMessages (readOk : Bool) (db : DB) (sid : String) : List Msg :=
  if readOk then listStore db sid else []

/-- `Server.handleChat` of server.ts: validation, agent call (`agentRun`
yielding the assistant content), then two independent best-effort
`saveMessage` calls (user first, then assistant), each swallowing its own
failure; the response is the assistant message with `success: true`. -/
def handleChat (req : ChatReq) (agentRun : ChatReq → Except String String)
    (okUser okAsst : Bool) (db : DB) : DB × ChatResp :=
  if req.message = "" ∨ req.sessionId = "" then
    (db, ⟨400, false, none, some "Missing required fields", true⟩)
  else
    match agentRun req with
    | .error e => (db, ⟨500, false, none, some e, true⟩)
    | .ok content =>
        let db1 := saveMessage db req.sessionId "user" req.message okUser
        let db2 := saveMessage db1 req.sessionId "assistant" content okAsst
        (db2, ⟨200, true, some content, none, true⟩)

/-- `Server.handleGetHistory` of server.ts: 400 when `sessionId` is missing
or empty; otherwise always a 200 with `getMessages`, which degrades a read
failure to the empty list. -/
def handleGetHistory (sessionParam : Option String) (readOk : Bool)
    (db : DB) : HistResp :=
  let sid := sessionParam.getD ""
  if sid = "" then ⟨400, false, [], some "Missing sessionId", true⟩
  else ⟨200, true, getMessages readOk db sid, none, true⟩

/-- `Server.handleDeleteHistory` of server.ts: 400 when `sessionId` is
missing or empty; the DELETE failure is caught and returned as a 500. -/
def handleDeleteHistory (sessionParam : Option String) (delOk : Bool)
    (db : DB) : DB × HistResp :=
  let sid := sessionParam.getD ""
  if sid = "" then (db, ⟨400, false, [], some "Missing sessionId", true⟩)
  else if delOk then (clearStore db sid, ⟨200, true, [], none, true⟩)
  else (db, ⟨500, false, [], some "Internal server error", true⟩)

/-- `Server.handleRequest` of server.ts: OPTIONS returns
`new Response(null, \x7b headers: corsHeaders \x7d)` — note the default
status 200, no explicit 204; then the route switch, `/health`, the
frontend, and a CORS-carrying 404 default. -/
def handleRequest (r : Request) (agentRun : ChatReq → Except String String)
    (okUser okAsst readOk delOk : Bool) (db : DB) : DB × HttpResp :=
  if r.method = "OPTIONS" then (db, ⟨200, true, false⟩)
  else if r.path = "/api/chat" ∧ r.method = "POST" then
    let res := handleChat r.chatBody agentRun okUser okAsst db
    (res.1, ⟨res.2.status, res.2.cors, true⟩)
  else if r.path = "/api/history" ∧ r.method = "GET" then
    let resp := handleGetHistory r.sessionParam readOk db
    (db, ⟨resp.status, resp.cors, true⟩)
  else if r.path = "/api/history" ∧ r.method = "DELETE" then
    let res := handleDeleteHistory r.sessionParam delOk db
    (res.1, ⟨res.2.status, res.2.cors, true⟩)
  else if r.path = "/health" then (db, ⟨200, true, true⟩)
  else if r.path = "/" ∨ r.path = "/index.html" then (db, ⟨200, true, true⟩)
  else (db, ⟨404, true, true⟩)

end ServerTs

/-- Assembly policy as the specification words it (&sect;4.2): prefer the
durable store's `list(sessionId)` result as source of truth when the store
is available and non-empty, fall back to the client-supplied hint only if
the store is unavailable or empty, and always append the new user message
as the final turn with role `user`.  Stated for comparison with the
assembly the code actually performs. -/
def specPreferStoreAssemble (storeAvailable : Bool) (db : DB) (sid : String)
    (hint : List Msg) (message : String) : List Msg :=
  (if storeAvailable ∧ listStore db sid ≠ [] then listStore db sid else hint)
    ++ [⟨"user", message⟩]

namespace Tools

/-- The result of the `fetch(url)` call inside the tool, as far as the tool
inspects it: the `ok` flag and the body text (a character list, so that
`slice` and `length` are explicit). -/
structure FetchResponse where
  ok : Bool
  body : List Char
deriving Repr, DecidableEq

/-- The object returned by `analyzeWebsite` on success. -/
structure AnalyzeResult where
  url : String
  html : List Char
  truncated : Bool
deriving Repr, DecidableEq

/-- The `analyzeWebsite` tool of part_002/part_003: throws when the fetch
response is not ok; otherwise returns the body sliced to the first 8000
characters and `truncated` computed from the full body length. -/
def analyzeWebsite (url : String) (resp : FetchResponse) :
    Except String AnalyzeResult :=
  if resp.ok then
    .ok ⟨url, resp.body.take 8000, decide (8000 < resp.body.length)⟩
  else .error ("Failed to fetch " ++ url)

end Tools

/-! ### Store-level helper lemmas -/

theorem listStore_append (db rows : DB) (sid : String) :
    listStore (db ++ rows) sid = listStore db sid ++ listStore rows sid := by
  simp [listStore, List.filter_append]

theorem listStore_eq_nil_of_fresh (db : DB) (sid : String)
    (h : ∀ r ∈ db, r.session ≠ sid) : listStore db sid = [] := by
  have hf : db.filter (fun r => r.session == sid) = [] := by
    rw [List.filter_eq_nil_iff]
    intro a ha
    simpa using h a ha
  simp [listStore, hf]

theorem clearStore_idem (db : DB) (sid : String) :
    clearStore (clearStore db sid) sid = clearStore db sid := by
  simp [clearStore, List.filter_filter]

theorem listStore_clearStore (db : DB) (sid : String) :
    listStore (clearStore db sid) sid = [] := by
  simp [listStore, clearStore, List.filter_filter]

/-! ### Handler helper lemmas -/

theorem part004_handleChat_cors (req : ChatReq)
    (aiRun : List Msg → Except String (Option String))
    (okUser okAsst : Bool) (db : DB) :
    (Part004.handleChat req aiRun okUser okAsst db).2.cors = true := by
  unfold Part004.handleChat
  split
  · rfl
  · cases aiRun (Part004.assembledMessages req) <;> rfl

theorem part004_handleGetHistory_cors (sessionParam : Option String)
    (readOk : Bool) (db : DB) :
    (Part004.handleGetHistory sessionParam readOk db).cors = true := by
  unfold Part004.handleGetHistory
  by_cases h : sessionParam.getD "" = ""
  · simp [h]
  · by_cases h2 : readOk <;> simp [h, h2]

theorem part004_handleDeleteHistory_cors (sessionParam : Option String)
    (delOk : Bool) (db : DB) :
    (Part004.handleDeleteHistory sessionParam delOk db).2.cors = true := by
  unfold Part004.handleDeleteHistory
  by_cases h : sessionParam.getD "" = ""
  · simp [h]
  · by_cases h2 : delOk <;> simp [h, h2]

theorem serverTs_handleChat_cors (req : ChatReq)
    (agentRun : ChatReq → Except String String)
    (okUser okAsst : Bool) (db : DB) :
    (ServerTs.handleChat req agentRun okUser okAsst db).2.cors = true := by
  unfold ServerTs.handleChat
  split
  · rfl
  · cases agentRun req <;> rfl

theorem serverTs_handleGetHistory_cors (sessionParam : Option String)
    (readOk : Bool) (db : DB) :
    (ServerTs.handleGetHistory sessionParam readOk db).cors = true := by
  unfold ServerTs.handleGetHistory
  by_cases h : sessionParam.getD "" = "" <;> simp [h]

theorem serverTs_handleDeleteHistory_cors (sessionParam : Option String)
    (delOk : Bool) (db : DB) :
    (ServerTs.handleDeleteHistory sessionParam delOk db).2.cors = true := by
  unfold ServerTs.handleDeleteHistory
  by_cases h : sessionParam.getD "" = ""
  · simp [h]
  · by_cases h2 : delOk <;> simp [h, h2]

/-! ### Claim C1 -/

/-- C1 counterexample: a chat request on session s1 whose model call
succeeds but whose second INSERT throws returns a successful response while
the store gains only the user turn — just one of the pair. -/
theorem handleChat_success_with_user_only_persisted :
    Part004.handleChat ⟨"hi", "s1", []⟩ (fun _ => .ok (some "reply")) true false []
      = ([⟨"s1", "user", "hi"⟩], ⟨200, true, some "reply", none, true⟩) := by
  rfl

/-- C1 (amended): after a successful chat call in which both best-effort
INSERTs succeed, the store gains exactly one new user turn (the request
message) immediately followed by exactly one new assistant turn (the model
reply), appended user first then assistant; if persistence fails the
response is still successful but the pair may be incomplete. -/
theorem handleChat_persists_user_assistant_pair
    (req : ChatReq) (aiRun : List Msg → Except String (Option String))
    (db : DB) (rsp : Option String)
    (hmsg : req.message ≠ "") (hsid : req.sessionId ≠ "")
    (hai : aiRun (Part004.assembledMessages req) = .ok rsp) :
    Part004.handleChat req aiRun true true db
      = (db ++ [⟨req.sessionId, "user", req.message⟩,
                ⟨req.sessionId, "assistant", rsp.getD "No response generated"⟩],
         ⟨200, true, some (rsp.getD "No response generated"), none, true⟩)
    ∧ listStore (Part004.handleChat req aiRun true true db).1 req.sessionId
      = listStore db req.sessionId
          ++ [⟨"user", req.message⟩,
              ⟨"assistant", rsp.getD "No response generated"⟩] := by
  have h1 : Part004.handleChat req aiRun true true db
      = (db ++ [⟨req.sessionId, "user", req.message⟩,
                ⟨req.sessionId, "assistant", rsp.getD "No response generated"⟩],
         ⟨200, true, some (rsp.getD "No response generated"), none, true⟩) := by
    unfold Part004.handleChat
    rw [if_neg (by simp [hmsg, hsid]), hai]
    simp [Part004.persistPair]
  refine ⟨h1, ?_⟩
  rw [h1, listStore_append]
  simp [listStore]

/-- Witness for `handleChat_persists_user_assistant_pair` at a concrete
request, model stub and empty store. -/
theorem handleChat_persists_user_assistant_pair_witness :
    Part004.handleChat ⟨"hi", "s1", []⟩ (fun _ => .ok (some "four")) true true []
      = ([⟨"s1", "user", "hi"⟩, ⟨"s1", "assistant", "four"⟩],
         ⟨200, true, some "four", none, true⟩)
    ∧ listStore (Part004.handleChat ⟨"hi", "s1", []⟩
          (fun _ => .ok (some "four")) true true []).1 "s1"
      = listStore ([] : DB) "s1" ++ [⟨"user", "hi"⟩, ⟨"assistant", "four"⟩] :=
  handleChat_persists_user_assistant_pair ⟨"hi", "s1", []⟩
    (fun _ => .ok (some "four")) [] (some "four")
    (by decide) (by decide) rfl

/-! ### Claim C2 -/

/-- C2 counterexample: with the store available and non-empty for session
s1 and a non-empty client hint that differs from the stored history, the
model is called with the client hint plus the user message, not with the
store-preferred assembly: a model stub accepting only the store-preferred
list is never given it, so the handler returns 500; and the two assemblies
are indeed different lists. -/
theorem handleChat_ignores_store_for_model_input :
    (Part004.handleChat ⟨"hi", "s1", [⟨"user", "stale"⟩]⟩
        (fun msgs =>
          if msgs = specPreferStoreAssemble true [⟨"s1", "user", "real"⟩] "s1"
              [⟨"user", "stale"⟩] "hi"
          then .ok (some "reply") else .error "unexpected model input")
        true true [⟨"s1", "user", "real"⟩]).2.status = 500
    ∧ Part004.assembledMessages ⟨"hi", "s1", [⟨"user", "stale"⟩]⟩
        ≠ specPreferStoreAssemble true [⟨"s1", "user", "real"⟩] "s1"
            [⟨"user", "stale"⟩] "hi" := by
  decide

/-- C2 (amended): the chat handler consults only the client-supplied
history hint when assembling the model input: its result depends on the
model function only through its value at `assembledMessages req`, which
equals the hint followed by the new user message (final turn with role
user), and the response is independent of the durable store contents. -/
theorem handleChat_model_input_is_client_hint
    (req : ChatReq) (f g : List Msg → Except String (Option String))
    (okUser okAsst : Bool) (db db2 : DB)
    (hfg : f (Part004.assembledMessages req)
            = g (Part004.assembledMessages req)) :
    Part004.handleChat req f okUser okAsst db
      = Part004.handleChat req g okUser okAsst db
    ∧ (Part004.handleChat req f okUser okAsst db).2
      = (Part004.handleChat req f okUser okAsst db2).2
    ∧ Part004.assembledMessages req
      = req.conversationHistory ++ [⟨"user", req.message⟩]
    ∧ (Part004.assembledMessages req).getLast? = some ⟨"user", req.message⟩ := by
  have hid : (fun m : Msg => (⟨m.role, m.content⟩ : Msg)) = id := by
    funext m
    rfl
  have hasm : Part004.assembledMessages req
      = req.conversationHistory ++ [⟨"user", req.message⟩] := by
    simp [Part004.assembledMessages, hid]
  refine ⟨?_, ?_, hasm, ?_⟩
  · unfold Part004.handleChat
    by_cases hv : req.message = "" ∨ req.sessionId = ""
    · rw [if_pos hv, if_pos hv]
    · rw [if_neg hv, if_neg hv, hfg]
  · unfold Part004.handleChat
    by_cases hv : req.message = "" ∨ req.sessionId = ""
    · rw [if_pos hv, if_pos hv]
    · rw [if_neg hv, if_neg hv]
      cases f (Part004.assembledMessages req) <;> rfl
  · rw [hasm]
    exact List.getLast?_concat _

/-- Witness for `handleChat_model_input_is_client_hint` at a concrete
request, two model stubs agreeing on the assembled input, and two different
stores. -/
theorem handleChat_model_input_is_client_hint_witness :
    Part004.handleChat ⟨"hi", "s1", [⟨"user", "h0"⟩]⟩
        (fun _ => .ok (some "a")) true true []
      = Part004.handleChat ⟨"hi", "s1", [⟨"user", "h0"⟩]⟩
          (fun _ => .ok (some "a")) true true []
    ∧ (Part004.handleChat ⟨"hi", "s1", [⟨"user", "h0"⟩]⟩
          (fun _ => .ok (some "a")) true true []).2
      = (Part004.handleChat ⟨"hi", "s1", [⟨"user", "h0"⟩]⟩
          (fun _ => .ok (some "a")) true true [⟨"s2", "user", "x"⟩]).2
    ∧ Part004.assembledMessages ⟨"hi", "s1", [⟨"user", "h0"⟩]⟩
      = [⟨"user", "h0"⟩] ++ [⟨"user", "hi"⟩]
    ∧ (Part004.assembledMessages ⟨"hi", "s1", [⟨"user", "h0"⟩]⟩).getLast?
      = some ⟨"user", "hi"⟩ :=
  handleChat_model_input_is_client_hint ⟨"hi", "s1", [⟨"user", "h0"⟩]⟩
    (fun _ => .ok (some "a")) (fun _ => .ok (some "a")) true true
    [] [⟨"s2", "user", "x"⟩] rfl

/-! ### Claim C3 -/

/-- C3: if the model invocation throws, the chat handler returns an HTTP
500 error response and leaves the message table — hence `list(S)` for every
session — unchanged: no user-only turn is persisted. -/
theorem handleChat_model_failure_no_mutation
    (req : ChatReq) (aiRun : List Msg → Except String (Option String))
    (okUser okAsst : Bool) (db : DB) (e : String)
    (hmsg : req.message ≠ "") (hsid : req.sessionId ≠ "")
    (hai : aiRun (Part004.assembledMessages req) = .error e) :
    Part004.handleChat req aiRun okUser okAsst db
      = (db, ⟨500, false, none, some e, true⟩) := by
  unfold Part004.handleChat
  rw [if_neg (by simp [hmsg, hsid]), hai]

/-- Witness for `handleChat_model_failure_no_mutation` at a concrete
request and a throwing model stub. -/
theorem handleChat_model_failure_no_mutation_witness :
    Part004.handleChat ⟨"hi", "s1", []⟩ (fun _ => .error "model down")
        true true []
      = ([], ⟨500, false, none, some "model down", true⟩) :=
  handleChat_model_failure_no_mutation ⟨"hi", "s1", []⟩
    (fun _ => .error "model down") true true [] "model down"
    (by decide) (by decide) rfl

/-! ### Claim C4 -/

/-- C4: after a successful model call, the chat handler returns the same
successful 200 response carrying the assistant reply regardless of whether
either best-effort INSERT succeeds or fails: persistence failures are
swallowed and do not affect the caller-visible response. -/
theorem handleChat_response_independent_of_persistence
    (req : ChatReq) (aiRun : List Msg → Except String (Option String))
    (okUser okAsst : Bool) (db : DB) (rsp : Option String)
    (hmsg : req.message ≠ "") (hsid : req.sessionId ≠ "")
    (hai : aiRun (Part004.assembledMessages req) = .ok rsp) :
    (Part004.handleChat req aiRun okUser okAsst db).2
      = ⟨200, true, some (rsp.getD "No response generated"), none, true⟩ := by
  unfold Part004.handleChat
  rw [if_neg (by simp [hmsg, hsid]), hai]

/-- Witness for `handleChat_response_independent_of_persistence` with both
INSERTs failing: the caller still receives the assistant reply. -/
theorem handleChat_response_independent_of_persistence_witness :
    (Part004.handleChat ⟨"hi", "s1", []⟩ (fun _ => .ok (some "reply"))
        false false []).2
      = ⟨200, true, some "reply", none, true⟩ :=
  handleChat_response_independent_of_persistence ⟨"hi", "s1", []⟩
    (fun _ => .ok (some "reply")) false false [] (some "reply")
    (by decide) (by decide) rfl

/-! ### Claim C5 -/

/-- C5: when the sessionId or the user message is empty, the chat handler
returns a 400 response with the table unchanged, and its result is the
same for every model function and every INSERT fault pattern — the model
is never invoked and no session's store is mutated. -/
theorem handleChat_validation_failure
    (req : ChatReq) (f g : List Msg → Except String (Option String))
    (okUser okAsst okUser2 okAsst2 : Bool) (db : DB)
    (hv : req.sessionId = "" ∨ req.message = "") :
    Part004.handleChat req f okUser okAsst db
      = (db, ⟨400, false, none, some "Missing required fields", true⟩)
    ∧ Part004.handleChat req f okUser okAsst db
      = Part004.handleChat req g okUser2 okAsst2 db := by
  have hv' : req.message = "" ∨ req.sessionId = "" := hv.symm
  have h1 : Part004.handleChat req f okUser okAsst db
      = (db, ⟨400, false, none, some "Missing required fields", true⟩) := by
    unfold Part004.handleChat
    rw [if_pos hv']
  have h2 : Part004.handleChat req g okUser2 okAsst2 db
      = (db, ⟨400, false, none, some "Missing required fields", true⟩) := by
    unfold Part004.handleChat
    rw [if_pos hv']
  exact ⟨h1, h1.trans h2.symm⟩

/-- Witness for `handleChat_validation_failure` at an empty message. -/
theorem handleChat_validation_failure_witness :
    Part004.handleChat ⟨"", "s1", []⟩ (fun _ => .ok (some "a")) true true []
      = ([], ⟨400, false, none, some "Missing required fields", true⟩)
    ∧ Part004.handleChat ⟨"", "s1", []⟩ (fun _ => .ok (some "a")) true true []
      = Part004.handleChat ⟨"", "s1", []⟩ (fun _ => .error "b") false false [] :=
  handleChat_validation_failure ⟨"", "s1", []⟩
    (fun _ => .ok (some "a")) (fun _ => .error "b") true true false false []
    (by decide)

/-! ### Claim C6 -/

/-- C6 counterexample: in the part_004 worker, a storage read failure
during GET /api/history with a non-empty sessionId is not degraded to an
empty list: the handler returns a 500 error response. -/
theorem part004_history_read_failure_is_500 :
    Part004.handleGetHistory (some "s1") false []
      = ⟨500, false, [], some "Internal server error", true⟩
    ∧ (Part004.handleGetHistory (some "s1") false []).success = false := by
  decide

/-- C6 (amended): in the Server class variant, a storage read failure
during history retrieval degrades to a successful 200 response with an
empty message list (whereas the part_004 worker returns a 500 for the same
failure). -/
theorem serverTs_history_read_failure_degrades_to_empty
    (sid : String) (db : DB) (h : sid ≠ "") :
    ServerTs.handleGetHistory (some sid) false db
      = ⟨200, true, [], none, true⟩ := by
  unfold ServerTs.handleGetHistory ServerTs.getMessages
  simp [h]

/-- Witness for `serverTs_history_read_failure_degrades_to_empty`. -/
theorem serverTs_history_read_failure_degrades_to_empty_witness :
    ServerTs.handleGetHistory (some "s1") false [⟨"s1", "user", "x"⟩]
      = ⟨200, true, [], none, true⟩ :=
  serverTs_history_read_failure_degrades_to_empty "s1"
    [⟨"s1", "user", "x"⟩] (by decide)

/-! ### Claim C7 -/

/-- C7: clearing a session is idempotent: at the store level two
consecutive DELETEs agree and leave the session's list empty (for every
sessionId, including empty-string and unknown ones), and through the
DELETE /api/history handler two consecutive calls both return success and
the session's list afterwards is empty. -/
theorem clear_idempotent (db : DB) (sid : String) :
    clearStore (clearStore db sid) sid = clearStore db sid
    ∧ listStore (clearStore db sid) sid = []
    ∧ (sid ≠ "" →
        (Part004.handleDeleteHistory (some sid) true db).2.success = true
        ∧ (Part004.handleDeleteHistory (some sid) true
            (Part004.handleDeleteHistory (some sid) true db).1).2.success = true
        ∧ listStore (Part004.handleDeleteHistory (some sid) true
            (Part004.handleDeleteHistory (some sid) true db).1).1 sid = []) := by
  refine ⟨clearStore_idem db sid, listStore_clearStore db sid, fun h => ?_⟩
  unfold Part004.handleDeleteHistory
  simp [h, listStore_clearStore]

/-- Witness for `clear_idempotent` on a store holding turns for two
sessions, clearing session s1 twice. -/
theorem clear_idempotent_witness :
    clearStore (clearStore [⟨"s1", "user", "x"⟩, ⟨"s2", "user", "y"⟩] "s1") "s1"
      = clearStore [⟨"s1", "user", "x"⟩, ⟨"s2", "user", "y"⟩] "s1"
    ∧ listStore (clearStore [⟨"s1", "user", "x"⟩, ⟨"s2", "user", "y"⟩] "s1") "s1"
      = []
    ∧ ((Part004.handleDeleteHistory (some "s1") true
          [⟨"s1", "user", "x"⟩, ⟨"s2", "user", "y"⟩]).2.success = true
       ∧ (Part004.handleDeleteHistory (some "s1") true
            (Part004.handleDeleteHistory (some "s1") true
              [⟨"s1", "user", "x"⟩, ⟨"s2", "user", "y"⟩]).1).2.success = true
       ∧ listStore (Part004.handleDeleteHistory (some "s1") true
            (Part004.handleDeleteHistory (some "s1") true
              [⟨"s1", "user", "x"⟩, ⟨"s2", "user", "y"⟩]).1).1 "s1" = []) :=
  ⟨(clear_idempotent [⟨"s1", "user", "x"⟩, ⟨"s2", "user", "y"⟩] "s1").1,
   (clear_idempotent [⟨"s1", "user", "x"⟩, ⟨"s2", "user", "y"⟩] "s1").2.1,
   (clear_idempotent [⟨"s1", "user", "x"⟩, ⟨"s2", "user", "y"⟩] "s1").2.2
     (by decide)⟩

/-! ### Claim C8 -/

/-- C8: for a sessionId never written to (no row of the table belongs to
it), GET /api/history returns a successful 200 response with the empty
message list, not an error. -/
theorem list_unknown_session_empty
    (sid : String) (db : DB) (hsid : sid ≠ "")
    (hfresh : ∀ r ∈ db, r.session ≠ sid) :
    Part004.handleGetHistory (some sid) true db
      = ⟨200, true, [], none, true⟩ := by
  unfold Part004.handleGetHistory
  simp [hsid, listStore_eq_nil_of_fresh db sid hfresh]

/-- Witness for `list_unknown_session_empty`: reading an unknown session
from a store holding another session's turn. -/
theorem list_unknown_session_empty_witness :
    Part004.handleGetHistory (some "s2") true [⟨"s1", "user", "x"⟩]
      = ⟨200, true, [], none, true⟩ :=
  list_unknown_session_empty "s2" [⟨"s1", "user", "x"⟩]
    (by decide) (by decide)

/-! ### Claim C9 -/

/-- C9 counterexample: in the Server class variant an OPTIONS request is
answered with a Response whose status defaults to 200, not 204. -/
theorem serverTs_options_status_is_200 :
    (ServerTs.handleRequest ⟨"OPTIONS", "/api/chat", ⟨"", "", []⟩, none⟩
        (fun _ => .error "unused") true true true true []).2
      = ⟨200, true, false⟩
    ∧ (200 : Nat) ≠ 204 := by
  decide

/-- C9 (amended): every response of part_004's `fetch` and of the Server
class's `handleRequest` carries the permissive CORS headers; an OPTIONS
request receives those headers and an empty body — with status 204 from
the part_004 worker but status 200 from the Server class variant. -/
theorem all_responses_carry_cors
    (r : Request) (aiRun : List Msg → Except String (Option String))
    (agentRun : ChatReq → Except String String)
    (okUser okAsst readOk delOk : Bool) (db : DB) :
    (Part004.fetch r aiRun okUser okAsst readOk delOk db).2.cors = true
    ∧ (ServerTs.handleRequest r agentRun okUser okAsst readOk delOk db).2.cors
        = true
    ∧ (r.method = "OPTIONS" →
        (Part004.fetch r aiRun okUser okAsst readOk delOk db).2
          = ⟨204, true, false⟩
        ∧ (ServerTs.handleRequest r agentRun okUser okAsst readOk delOk db).2
          = ⟨200, true, false⟩) := by
  refine ⟨?_, ?_, fun hm => ?_⟩
  · unfold Part004.fetch
    repeat' split
    all_goals
      simp [part004_handleChat_cors, part004_handleGetHistory_cors,
        part004_handleDeleteHistory_cors]
  · unfold ServerTs.handleRequest
    repeat' split
    all_goals
      simp [serverTs_handleChat_cors, serverTs_handleGetHistory_cors,
        serverTs_handleDeleteHistory_cors]
  · constructor
    · unfold Part004.fetch
      rw [if_pos hm]
    · unfold ServerTs.handleRequest
      rw [if_pos hm]

/-- Witness for `all_responses_carry_cors` at a concrete OPTIONS request. -/
theorem all_responses_carry_cors_witness :
    (Part004.fetch ⟨"OPTIONS", "/", ⟨"", "", []⟩, none⟩
        (fun _ => .error "unused") true true true true []).2.cors = true
    ∧ (ServerTs.handleRequest ⟨"OPTIONS", "/", ⟨"", "", []⟩, none⟩
        (fun _ => .error "unused") true true true true []).2.cors = true
    ∧ ((Part004.fetch ⟨"OPTIONS", "/", ⟨"", "", []⟩, none⟩
          (fun _ => .error "unused") true true true true []).2
        = ⟨204, true, false⟩
       ∧ (ServerTs.handleRequest ⟨"OPTIONS", "/", ⟨"", "", []⟩, none⟩
            (fun _ => .error "unused") true true true true []).2
        = ⟨200, true, false⟩) :=
  ⟨(all_responses_carry_cors ⟨"OPTIONS", "/", ⟨"", "", []⟩, none⟩
      (fun _ => .error "unused") (fun _ => .error "unused")
      true true true true []).1,
   (all_responses_carry_cors ⟨"OPTIONS", "/", ⟨"", "", []⟩, none⟩
      (fun _ => .error "unused") (fun _ => .error "unused")
      true true true true []).2.1,
   (all_responses_carry_cors ⟨"OPTIONS", "/", ⟨"", "", []⟩, none⟩
      (fun _ => .error "unused") (fun _ => .error "unused")
      true true true true []).2.2 rfl⟩

/-! ### Claim C10 -/

/-- C10: on a fetch whose response is ok with body h, analyzeWebsite
returns html equal to the first 8000 characters of h with truncated true
exactly when h exceeds 8000 characters; on a non-ok response it throws
instead of returning a result. -/
theorem analyzeWebsite_truncation (url : String) (body : List Char) :
    (∃ r, Tools.analyzeWebsite url ⟨true, body⟩ = .ok r
        ∧ r.html = body.take 8000
        ∧ r.html ++ body.drop 8000 = body
        ∧ (r.truncated = true ↔ 8000 < body.length))
    ∧ (∃ e, Tools.analyzeWebsite url ⟨false, body⟩ = .error e) := by
  refine ⟨⟨⟨url, body.take 8000, decide (8000 < body.length)⟩, ?_, rfl, ?_, ?_⟩,
    ⟨"Failed to fetch " ++ url, ?_⟩⟩
  · rfl
  · exact List.take_append_drop 8000 body
  · exact decide_eq_true_iff
  · rfl
